import Mathlib

/-!
Shallow embedding of the MCP synchronous session layer
(`sync_base_session.py`) and of the SSE transport (`sse_sync_client.py`),
together with proofs about the request lifecycle, the responder state
machine, the receive loop, and the transport reader/writer startup.

Conventions of the embedding:
* Python dicts keyed by request id become association lists
  (`lookupD` / `insertD` / `eraseD` mirror `d.get`, `d[k] = v`, `del d[k]`).
* The blocking queues become lists of queued items; putting an item is
  appending it.  The session's `_write_queue` (owned by the transport but
  written to by the session) is carried inside `SessionState` so that the
  session operations can record what they enqueue.
* Opaque validated payloads (`params`, `result`, dumps of pydantic models)
  are carried as `String` blobs; the pydantic `model_validate` calls become
  caller-supplied functions returning `Option` (`none` models a
  `ValidationError` being raised).
* A Python exception that escapes a worker loop is an explicit
  `StepOutcome.crashed` outcome; exceptions put on a queue are `ReadItem.exc`;
  the `None` end-of-stream sentinel is `ReadItem.eos`.
-/

/-- RequestId = Union[str, int]. -/
inductive RequestId
  | str (s : String)
  | num (n : Nat)
deriving DecidableEq, Repr

/-- ErrorData: code, message and optional data of a JSON-RPC error object. -/
structure ErrorData where
  code : Int
  message : String
  data : Option String
deriving DecidableEq, Repr

/-- JSONRPCMessage: the discriminated union of the four wire envelopes
(JSONRPCRequest / JSONRPCNotification / JSONRPCResponse / JSONRPCError). -/
inductive JSONRPCMessage
  | request (id : RequestId) (method : String) (params : String)
  | notification (method : String) (params : String)
  | response (id : RequestId) (result : String)
  | error (id : RequestId) (error : ErrorData)
deriving DecidableEq, Repr

/-- Whether an envelope carries an `id` field (requests, responses and
error responses do; notifications never do). -/
def JSONRPCMessage.hasId : JSONRPCMessage → Bool
  | .request .. => true
  | .notification .. => false
  | .response .. => true
  | .error .. => true

/-- Items a response channel (`queue.Queue[JSONRPCResponse | JSONRPCError]`)
can hold. -/
inductive RespOrErr
  | resp (id : RequestId) (result : String)
  | err (id : RequestId) (e : ErrorData)
deriving DecidableEq, Repr

/-- Items the transport puts on the inbound (read) queue: a parsed envelope,
an exception object, or the `None` end-of-stream sentinel. -/
inductive ReadItem
  | msg (m : JSONRPCMessage)
  | exc (e : String)
  | eos
deriving DecidableEq, Repr

/-- Association-list lookup, mirroring `d.get(k)`. -/
def lookupD {κ α : Type} [DecidableEq κ] : List (κ × α) → κ → Option α
  | [], _ => none
  | (k', v) :: rest, k => if k' = k then some v else lookupD rest k

/-- Association-list insert/replace, mirroring `d[k] = v`. -/
def insertD {κ α : Type} [DecidableEq κ] : List (κ × α) → κ → α → List (κ × α)
  | [], k, v => [(k, v)]
  | (k', v') :: rest, k, v =>
      if k' = k then (k, v) :: rest else (k', v') :: insertD rest k v

/-- Association-list removal, mirroring `del d[k]`. -/
def eraseD {κ α : Type} [DecidableEq κ] : List (κ × α) → κ → List (κ × α)
  | [], _ => []
  | (k', v') :: rest, k =>
      if k' = k then eraseD rest k else (k', v') :: eraseD rest k

theorem lookupD_eraseD {κ α : Type} [DecidableEq κ] (d : List (κ × α)) (k : κ) :
    lookupD (eraseD d k) k = none := by
  induction d with
  | nil => rfl
  | cons p rest ih =>
      by_cases h : p.1 = k
      · simpa [eraseD, h] using ih
      · simp [eraseD, lookupD, h, ih]

/-- Inbound request payload after `receive_request_type.model_validate`
succeeded. -/
structure InboundRequest where
  method : String
  params : String
deriving DecidableEq, Repr

/-- Inbound notification after `receive_notification_type.model_validate`
succeeded: either a `CancelledNotification` carrying the cancelled
request id, or any other notification. -/
inductive InboundNotif
  | cancelled (requestId : RequestId)
  | other (method : String) (params : String)
deriving DecidableEq, Repr

/-- RequestResponder's mutable state: the request id, the validated request,
and the `_entered` / `_completed` / `_cancelled` flags.  (The `_session`
back-pointer and `_on_complete` callback are modelled behaviourally: the
envelopes an operation sends are returned explicitly, and the on-complete
registry removal is part of `Responder.scopeExit`.) -/
structure Responder where
  requestId : RequestId
  request : InboundRequest
  entered : Bool
  completed : Bool
  cancelled : Bool
deriving DecidableEq, Repr

/-- Constructor state of a RequestResponder: all flags start false. -/
def mkResponder (rid : RequestId) (req : InboundRequest) : Responder :=
  { requestId := rid, request := req,
    entered := false, completed := false, cancelled := false }

/-- Scoped acquisition: `__enter__` sets `_entered`. -/
def Responder.enter (r : Responder) : Responder := { r with entered := true }

/-- Exceptions `respond` / `cancel` can raise: the RuntimeError for use
outside the context manager, and the AssertionError for an already
completed responder (the IllegalState error of the spec's taxonomy). -/
inductive RespError
  | notEntered
  | alreadyCompleted
deriving DecidableEq, Repr

/-- Either a successful result (the dump of a SendResultT) or an ErrorData,
the argument type of `respond` and `_send_response`. -/
inductive RespondPayload
  | result (r : String)
  | err (e : ErrorData)
deriving DecidableEq, Repr

/-- BaseSession._send_response: wrap a result or an ErrorData into the
outbound Response / ErrorResponse envelope for the given id. -/
def sendResponseMsg (rid : RequestId) : RespondPayload → JSONRPCMessage
  | .result r => .response rid r
  | .err e => .error rid e

/-- Outcome of one `respond` / `cancel` call: the exception raised (if any),
the responder's state afterwards, and the envelopes put on the write queue. -/
structure RespondResult where
  thrown : Option RespError
  responder : Responder
  sent : List JSONRPCMessage
deriving DecidableEq, Repr

/-- RequestResponder.respond: raises if not entered; raises AssertionError if
already completed; otherwise, if not cancelled, marks completed and sends
the Response/ErrorResponse envelope (if cancelled, silently sends nothing). -/
def Responder.respond (r : Responder) (payload : RespondPayload) : RespondResult :=
  if r.entered = false then
    { thrown := some .notEntered, responder := r, sent := [] }
  else if r.completed then
    { thrown := some .alreadyCompleted, responder := r, sent := [] }
  else if r.cancelled then
    { thrown := none, responder := r, sent := [] }
  else
    { thrown := none, responder := { r with completed := true },
      sent := [sendResponseMsg r.requestId payload] }

/-- RequestResponder.cancel: raises if not entered; otherwise marks cancelled
and completed and sends the cancellation ErrorResponse (code 0,
"Request cancelled") — with no check of `_completed` first. -/
def Responder.cancel (r : Responder) : RespondResult :=
  if r.entered = false then
    { thrown := some .notEntered, responder := r, sent := [] }
  else
    { thrown := none,
      responder := { r with cancelled := true, completed := true },
      sent := [.error r.requestId { code := 0, message := "Request cancelled", data := none }] }

/-- RequestResponder.__exit__: if completed, the on-complete callback fires
(popping the responder from the in-flight registry); `_entered` is cleared.
Returns the responder state and whether on-complete fired. -/
def Responder.scopeExit (r : Responder) : Responder × Bool :=
  ({ r with entered := false }, r.completed)

/-- Items handed to the generic `_handle_incoming` hook by the receive loop. -/
inductive IncomingItem
  | exc (e : String)
  | unmatchedResponse (id : RequestId)
  | responder (id : RequestId)
  | notif (method : String) (params : String)
deriving DecidableEq, Repr

/-- BaseSession's mutable state: the `_response_streams` registry (id to
response channel), the `_in_flight` responder registry, the `_request_id`
counter, the `_running` flag, whether the receive thread is alive, plus the
observable effect logs: the outbound write queue, the warnings logged, and
the items handed to `_handle_incoming`. -/
structure SessionState where
  responseStreams : List (RequestId × List RespOrErr)
  inFlight : List (RequestId × Responder)
  requestId : Nat
  running : Bool
  threadAlive : Bool
  writeQueue : List JSONRPCMessage
  warnings : List String
  incomingLog : List IncomingItem
deriving DecidableEq, Repr

/-- BaseSession.__init__: empty registries, counter at 0, not running,
receive thread created but not started. -/
def freshSession : SessionState :=
  { responseStreams := [], inFlight := [], requestId := 0,
    running := false, threadAlive := false,
    writeQueue := [], warnings := [], incomingLog := [] }

/-- BaseSession.start: set `_running` and start the receive thread. -/
def SessionState.start (s : SessionState) : SessionState :=
  { s with running := true, threadAlive := true }

/-- Result of BaseSession.close: the state afterwards and whether the call
blocked joining the receive thread. -/
structure CloseResult where
  state : SessionState
  joined : Bool
deriving DecidableEq, Repr

/-- BaseSession.close: clear `_running`; join the receive thread only if it
is alive. -/
def SessionState.close (s : SessionState) : CloseResult :=
  let s1 := { s with running := false }
  if s1.threadAlive then { state := s1, joined := true }
  else { state := s1, joined := false }

/-- An outbound request as a caller supplies it to `send_request`: the
runtime class name of the pydantic object (`request.__class__.__name__`)
and the method/params its `model_dump` produces. -/
structure SendRequest where
  className : String
  method : String
  params : String
deriving DecidableEq, Repr

/-- Atomic actions of `send_request`'s registration phase, recorded in
source order so lock discipline and ordering can be stated. -/
inductive Event
  | lockAcquire
  | lockRelease
  | allocId (id : Nat)
  | registerPending (id : RequestId)
  | enqueueOutbound (m : JSONRPCMessage)
deriving DecidableEq, Repr

/-- Result of the registration phase of `send_request`. -/
structure BeginResult where
  rid : Nat
  state : SessionState
  trace : List Event
deriving DecidableEq, Repr

/-- BaseSession.send_request up to the blocking `get`: under `_lock` read and
increment `_request_id`; after releasing the lock create a fresh response
channel and register it in `_response_streams`; then build the
JSONRPCRequest envelope and put it on the write queue.  The trace records
these actions in the order the source performs them. -/
def sendRequestBegin (s : SessionState) (req : SendRequest) : BeginResult :=
  let rid := s.requestId
  let s1 := { s with requestId := s.requestId + 1 }
  let s2 := { s1 with responseStreams := insertD s1.responseStreams (.num rid) [] }
  let env := JSONRPCMessage.request (.num rid) req.method req.params
  let s3 := { s2 with writeQueue := s2.writeQueue ++ [env] }
  { rid := rid, state := s3,
    trace := [.lockAcquire, .allocId rid, .lockRelease,
              .registerPending (.num rid), .enqueueOutbound env] }

/-- Outcome of `send_request` after the blocking `get` returns (or times
out): a validated result, a raised McpError, or a pydantic
ValidationError raised while validating the result. -/
inductive SendOutcome
  | ok (r : String)
  | errMcp (e : ErrorData)
  | validationFailed
deriving DecidableEq, Repr

/-- Result of the completion phase of `send_request`. -/
structure FinishResult where
  outcome : SendOutcome
  state : SessionState
deriving DecidableEq, Repr

/-- BaseSession.send_request from the blocking `get` on: `got = none` models
`queue.Empty` (timeout) and raises the 408 McpError whose message embeds
`request.__class__.__name__`; either way the `finally` deletes the
registry entry; a JSONRPCError raises McpError with the peer's ErrorData;
a JSONRPCResponse has its result validated against the caller-supplied
result type. -/
def sendRequestFinish (s : SessionState) (rid : Nat) (req : SendRequest)
    (validate : String → Option String) (got : Option RespOrErr) : FinishResult :=
  let s1 := { s with responseStreams := eraseD s.responseStreams (.num rid) }
  match got with
  | none =>
      { outcome := .errMcp
          { code := 408,
            message := "Timed out while waiting for response to " ++ req.className ++ ".",
            data := none },
        state := s1 }
  | some (.err _ e) => { outcome := .errMcp e, state := s1 }
  | some (.resp _ result) =>
      match validate result with
      | some r => { outcome := .ok r, state := s1 }
      | none => { outcome := .validationFailed, state := s1 }

/-- An outbound notification as supplied to `send_notification`: the
method/params its `model_dump` produces. -/
structure SendNotification where
  method : String
  params : String
deriving DecidableEq, Repr

/-- BaseSession.send_notification: build a JSONRPCNotification envelope (which
has no id) and put it on the write queue; nothing else is touched. -/
def sendNotification (s : SessionState) (n : SendNotification) : SessionState :=
  { s with writeQueue := s.writeQueue ++ [.notification n.method n.params] }

/-- Outcome of handling one dequeued item / of running the loop: the body
finished and the loop continues; an exception escaped the loop body and
the receive thread died; the loop observed `_running = false` and exited;
or there were no further queued items to process. -/
inductive StepOutcome
  | continued
  | crashed (e : String)
  | stopped
  | idle
deriving DecidableEq, Repr

/-- Result of one receive-loop iteration body. -/
structure StepResult where
  state : SessionState
  outcome : StepOutcome
deriving DecidableEq, Repr

/-- One iteration body of BaseSession._receive_loop on a dequeued item,
parameterised by the two pydantic validators
(`receive_request_type.model_validate`,
`receive_notification_type.model_validate`, `none` = raises).

Mirrored control flow:
* an Exception object goes to `_handle_incoming`;
* the `None` sentinel is neither an Exception nor has `.root`, so the
  `message.root` access raises AttributeError and kills the loop;
* a JSONRPCRequest is validated with no surrounding try/except (a
  validation failure kills the loop); on success a RequestResponder is
  created, stored in `_in_flight`, `_received_request` (base class: pass)
  runs, and since the responder is not completed it goes to
  `_handle_incoming`;
* a JSONRPCNotification is validated inside try/except (failure logs a
  warning and continues); a CancelledNotification looks up `_in_flight`
  and calls `cancel()` on the responder (whose RuntimeError, if the
  responder was never entered, is swallowed by the same except clause);
  other notifications go to `_received_notification` (pass) and
  `_handle_incoming`;
* a JSONRPCResponse / JSONRPCError is put on the matching
  `_response_streams` channel, or reported to `_handle_incoming` as a
  response with unknown request id. -/
def receiveStep (vr : String → String → Option InboundRequest)
    (vn : String → String → Option InboundNotif)
    (s : SessionState) (item : ReadItem) : StepResult :=
  match item with
  | .exc e =>
      { state := { s with incomingLog := s.incomingLog ++ [.exc e] },
        outcome := .continued }
  | .eos => { state := s, outcome := .crashed "AttributeError" }
  | .msg (.request rid method params) =>
      match vr method params with
      | none => { state := s, outcome := .crashed "ValidationError" }
      | some req =>
          let responder := mkResponder rid req
          let s1 := { s with inFlight := insertD s.inFlight rid responder }
          { state := { s1 with incomingLog := s1.incomingLog ++ [.responder rid] },
            outcome := .continued }
  | .msg (.notification method params) =>
      match vn method params with
      | none =>
          { state := { s with warnings := s.warnings ++ ["Failed to validate notification"] },
            outcome := .continued }
      | some (.cancelled rid) =>
          match lookupD s.inFlight rid with
          | none => { state := s, outcome := .continued }
          | some r =>
              let c := Responder.cancel r
              match c.thrown with
              | some _ =>
                  { state := { s with warnings := s.warnings ++ ["Failed to validate notification"] },
                    outcome := .continued }
              | none =>
                  let s1 := { s with inFlight := insertD s.inFlight rid c.responder }
                  { state := { s1 with writeQueue := s1.writeQueue ++ c.sent },
                    outcome := .continued }
      | some (.other m p) =>
          { state := { s with incomingLog := s.incomingLog ++ [.notif m p] },
            outcome := .continued }
  | .msg (.response rid result) =>
      match lookupD s.responseStreams rid with
      | some ch =>
          let s1 := { s with responseStreams :=
                        insertD s.responseStreams rid (ch ++ [.resp rid result]) }
          { state := s1, outcome := .continued }
      | none =>
          { state := { s with incomingLog := s.incomingLog ++ [.unmatchedResponse rid] },
            outcome := .continued }
  | .msg (.error rid e) =>
      match lookupD s.responseStreams rid with
      | some ch =>
          let s1 := { s with responseStreams :=
                        insertD s.responseStreams rid (ch ++ [.err rid e]) }
          { state := s1, outcome := .continued }
      | none =>
          { state := { s with incomingLog := s.incomingLog ++ [.unmatchedResponse rid] },
            outcome := .continued }

/-- BaseSession._receive_loop over a list of queued inbound items: while
`_running`, dequeue and handle each item in order; an escaped exception
ends the thread, observing `_running = false` exits the loop cleanly. -/
def receiveLoopRun (vr : String → String → Option InboundRequest)
    (vn : String → String → Option InboundNotif) :
    SessionState → List ReadItem → SessionState × StepOutcome
  | s, [] => (s, .idle)
  | s, item :: rest =>
      if s.running then
        let st := receiveStep vr vn s item
        match st.outcome with
        | .continued => receiveLoopRun vr vn st.state rest
        | o => (st.state, o)
      else (s, .stopped)

/-- Events of a send-request trace that happen while `_lock` is held,
given the lock's state when the trace starts. -/
def underLock : List Event → Bool → List Event
  | [], _ => []
  | .lockAcquire :: rest, _ => underLock rest true
  | .lockRelease :: rest, _ => underLock rest false
  | e :: rest, held => if held then e :: underLock rest held else underLock rest held

/-- Strict precedence of one event over another in a trace. -/
def precedesIn (tr : List Event) (a b : Event) : Prop :=
  ∃ i j : Fin tr.length, i.val < j.val ∧ tr.get i = a ∧ tr.get j = b

/-- Ids allocated by a sequence of `send_request` registration phases run
back-to-back on one session instance. -/
def allocSeq : List SendRequest → SessionState → List Nat × SessionState
  | [], s => ([], s)
  | r :: rest, s =>
      let b := sendRequestBegin s r
      let (ids, s') := allocSeq rest b.state
      (b.rid :: ids, s')

/-- Consecutive naturals starting at `start`. -/
def idRange : Nat → Nat → List Nat
  | _, 0 => []
  | start, n + 1 => start :: idRange (start + 1) n

theorem mem_idRange_le {n : Nat} : ∀ {start m : Nat}, m ∈ idRange start n → start ≤ m := by
  induction n with
  | zero => intro start m h; simp [idRange] at h
  | succ k ih =>
      intro start m h
      simp only [idRange, List.mem_cons] at h
      rcases h with h | h
      · exact h ▸ Nat.le_refl _
      · exact Nat.le_of_succ_le (ih h)

theorem idRange_pairwise (n : Nat) : ∀ start : Nat, (idRange start n).Pairwise (· < ·) := by
  induction n with
  | zero => intro start; simp [idRange]
  | succ k ih =>
      intro start
      refine List.Pairwise.cons ?_ (ih (start + 1))
      intro m hm
      exact Nat.lt_of_succ_le (mem_idRange_le hm)

theorem idRange_nodup (start n : Nat) : (idRange start n).Nodup :=
  (idRange_pairwise n start).imp Nat.ne_of_lt

theorem idRange_length (n : Nat) : ∀ start : Nat, (idRange start n).length = n := by
  induction n with
  | zero => intro start; rfl
  | succ k ih => intro start; simp [idRange, ih]

theorem idRange_getElem (n : Nat) :
    ∀ (start i : Nat) (h : i < (idRange start n).length),
      (idRange start n)[i] = start + i := by
  induction n with
  | zero => intro start i h; simp [idRange_length] at h
  | succ k ih =>
      intro start i h
      match i with
      | 0 => simp [idRange]
      | j + 1 =>
          have hj : j < (idRange (start + 1) k).length := by
            simpa [idRange] using Nat.lt_of_succ_lt_succ (by simpa [idRange] using h)
          calc (idRange start (k + 1))[j + 1] = (idRange (start + 1) k)[j] := by
                simp [idRange]
            _ = start + 1 + j := ih (start + 1) j hj
            _ = start + (j + 1) := by omega

theorem allocSeq_ids (reqs : List SendRequest) :
    ∀ s : SessionState, (allocSeq reqs s).1 = idRange s.requestId reqs.length := by
  induction reqs with
  | nil => intro s; rfl
  | cons r rest ih =>
      intro s
      simp only [allocSeq, sendRequestBegin, idRange, List.length_cons]
      rw [ih]

/-- Parsed form of a URL as far as the origin check uses it
(`urlparse(u).scheme` / `.netloc` / `.path`). -/
structure URL where
  scheme : String
  netloc : String
  path : String
deriving DecidableEq, Repr

/-- One parsed SSE frame: its event type and its data payload. -/
structure SSEEvent where
  event : String
  data : String
deriving DecidableEq, Repr

/-- Observable output of the `for sse in event_source.iter_sse()` loop body
of `SSEClient._sse_reader`: the items put on the read queue, the endpoint
URLs put on `task_status`, and the exception (if any) that escaped the
loop into the `except` clause. -/
structure LoopResult where
  items : List ReadItem
  taskStatus : List String
  raised : Option String
deriving DecidableEq, Repr

/-- The `for` loop of `SSEClient._sse_reader`, parameterised by the stream
URL (`self.url`), `urljoin self.url` (`joinUrl`), `urlparse` (`parseUrl`)
and `JSONRPCMessage.model_validate_json` (`parse`, `none` = raises).

Mirrored control flow, per frame:
* event "endpoint": resolve the data against the stream URL; if the
  resolved URL's netloc or scheme differs from the stream URL's, raise a
  ValueError (ending the loop); otherwise put the endpoint URL on
  `task_status`;
* event "message": parse the payload; on failure put the exception on the
  read queue and continue; on success put the message on the read queue;
* any other event type: log a warning, no functional effect. -/
def sseReaderLoop (selfUrl : String) (joinUrl : String → String)
    (parseUrl : String → URL) (parse : String → Option JSONRPCMessage) :
    List SSEEvent → LoopResult
  | [] => { items := [], taskStatus := [], raised := none }
  | ev :: rest =>
      if ev.event = "endpoint" then
        let endpointUrl := joinUrl ev.data
        if (parseUrl selfUrl).netloc ≠ (parseUrl endpointUrl).netloc
            ∨ (parseUrl selfUrl).scheme ≠ (parseUrl endpointUrl).scheme then
          { items := [], taskStatus := [],
            raised := some ("Endpoint origin does not match connection origin: " ++ endpointUrl) }
        else
          let l := sseReaderLoop selfUrl joinUrl parseUrl parse rest
          { l with taskStatus := endpointUrl :: l.taskStatus }
      else if ev.event = "message" then
        match parse ev.data with
        | none =>
            let l := sseReaderLoop selfUrl joinUrl parseUrl parse rest
            { l with items := ReadItem.exc "ValidationError" :: l.items }
        | some m =>
            let l := sseReaderLoop selfUrl joinUrl parseUrl parse rest
            { l with items := ReadItem.msg m :: l.items }
      else sseReaderLoop selfUrl joinUrl parseUrl parse rest

/-- Observable output of `SSEClient._sse_reader` on the read queue and
`task_status`. -/
structure ReaderResult where
  readQueue : List ReadItem
  taskStatus : List String
deriving DecidableEq, Repr

/-- SSEClient._sse_reader: run the frame loop; the `except` clause puts the
escaped exception (if any) on the read queue, and the `finally` clause
puts a single `None` end-of-stream sentinel after it. -/
def sseReader (selfUrl : String) (joinUrl : String → String)
    (parseUrl : String → URL) (parse : String → Option JSONRPCMessage)
    (events : List SSEEvent) : ReaderResult :=
  let l := sseReaderLoop selfUrl joinUrl parseUrl parse events
  { readQueue := l.items ++ (match l.raised with
      | some e => [ReadItem.exc e]
      | none => []) ++ [ReadItem.eos],
    taskStatus := l.taskStatus }

/-- SSEClient._post_writer's POSTs: drain the write queue, POSTing each
non-sentinel envelope to the endpoint; a falsy `None` sentinel ends the
loop. -/
def postWriterPosts : List (Option JSONRPCMessage) → List JSONRPCMessage
  | [] => []
  | none :: _ => []
  | some m :: rest => m :: postWriterPosts rest

/-- What `SSEClient.connect` does after starting the reader thread: either
`task_status.get()` yields the endpoint URL and the writer thread is
started, or nothing is ever put on `task_status` and the `get()` blocks
forever. -/
inductive ConnectOutcome
  | ok (endpoint : String)
  | blocked
deriving DecidableEq, Repr

/-- Observable result of `SSEClient.connect` (after the SSE stream itself
was established): the outcome of the blocking `task_status.get()`,
the reader's queue output, whether the writer thread was started, and
what the writer POSTs to the endpoint. -/
structure ConnectResult where
  outcome : ConnectOutcome
  reader : ReaderResult
  writerStarted : Bool
  posted : List JSONRPCMessage
deriving DecidableEq, Repr

/-- SSEClient.connect, given the frames the stream will deliver and the
contents of the outbound write queue: start the reader, block on
`task_status.get()`; only once an endpoint URL is received start the
writer thread (which then POSTs the queued envelopes). -/
def connect (selfUrl : String) (joinUrl : String → String)
    (parseUrl : String → URL) (parse : String → Option JSONRPCMessage)
    (events : List SSEEvent) (outbound : List (Option JSONRPCMessage)) : ConnectResult :=
  let r := sseReader selfUrl joinUrl parseUrl parse events
  match r.taskStatus with
  | [] => { outcome := .blocked, reader := r, writerStarted := false, posted := [] }
  | ep :: _ =>
      { outcome := .ok ep, reader := r, writerStarted := true,
        posted := postWriterPosts outbound }

theorem eos_not_mem_sseReaderLoop (selfUrl : String) (joinUrl : String → String)
    (parseUrl : String → URL) (parse : String → Option JSONRPCMessage) :
    ∀ events : List SSEEvent,
      ReadItem.eos ∉ (sseReaderLoop selfUrl joinUrl parseUrl parse events).items := by
  intro events
  induction events with
  | nil => simp [sseReaderLoop]
  | cons ev rest ih =>
      by_cases he : ev.event = "endpoint"
      · by_cases hm : (parseUrl selfUrl).netloc ≠ (parseUrl (joinUrl ev.data)).netloc
            ∨ (parseUrl selfUrl).scheme ≠ (parseUrl (joinUrl ev.data)).scheme
        · simp [sseReaderLoop, he, hm]
        · simp only [sseReaderLoop, if_pos he, if_neg hm]
          exact ih
      · by_cases hmsg : ev.event = "message"
        · simp only [sseReaderLoop, if_neg he, if_pos hmsg]
          cases hp : parse ev.data with
          | none => simpa using ih
          | some m => simpa using ih
        · simpa [sseReaderLoop, he, hmsg] using ih

theorem lookupD_insertD {κ α : Type} [DecidableEq κ] (d : List (κ × α)) (k : κ) (v : α) :
    lookupD (insertD d k v) k = some v := by
  induction d with
  | nil => simp [insertD, lookupD]
  | cons p rest ih =>
      obtain ⟨k', v'⟩ := p
      by_cases h : k' = k
      · simp [insertD, h, lookupD]
      · simp [insertD, lookupD, h, ih]

/-- A concrete outbound request: a `ClientRequest` wrapper whose dump is the
"ping" method. -/
def reqPing : SendRequest := { className := "ClientRequest", method := "ping", params := "" }

/-- A request validator that always raises (no method validates). -/
def vrNone : String → String → Option InboundRequest := fun _ _ => none

/-- A notification validator that always raises. -/
def vnNone : String → String → Option InboundNotif := fun _ _ => none

/-- A concrete peer error payload. -/
def err0 : ErrorData := { code := 5, message := "boom", data := none }

/-- C10: `send_notification` leaves the PendingRequest registry, the
in-flight responder registry and the request-id counter unchanged; its
only effect is to append exactly one id-less Notification envelope to the
outbound queue. -/
theorem sendNotification_frame (s : SessionState) (n : SendNotification) :
    (sendNotification s n).responseStreams = s.responseStreams
    ∧ (sendNotification s n).inFlight = s.inFlight
    ∧ (sendNotification s n).requestId = s.requestId
    ∧ (sendNotification s n).writeQueue
        = s.writeQueue ++ [JSONRPCMessage.notification n.method n.params]
    ∧ (JSONRPCMessage.notification n.method n.params).hasId = false
    ∧ (sendNotification s n).running = s.running
    ∧ (sendNotification s n).incomingLog = s.incomingLog := by
  exact ⟨rfl, rfl, rfl, rfl, rfl, rfl, rfl⟩

/-- C9: `close()` on a session whose receive thread was never started (so
`is_alive()` is false) does not join (does not block), raises nothing,
and leaves both registries and the request-id counter unchanged. -/
theorem close_without_start (s : SessionState) (h : s.threadAlive = false) :
    (SessionState.close s).joined = false
    ∧ (SessionState.close s).state.responseStreams = s.responseStreams
    ∧ (SessionState.close s).state.inFlight = s.inFlight
    ∧ (SessionState.close s).state.requestId = s.requestId := by
  simp [SessionState.close, h]

/-- Witness for `close_without_start` at the freshly constructed session. -/
theorem close_without_start_witness :
    freshSession.threadAlive = false
    ∧ ((SessionState.close freshSession).joined = false
        ∧ (SessionState.close freshSession).state.responseStreams = freshSession.responseStreams
        ∧ (SessionState.close freshSession).state.inFlight = freshSession.inFlight
        ∧ (SessionState.close freshSession).state.requestId = freshSession.requestId) :=
  ⟨rfl, close_without_start freshSession rfl⟩

/-- C8: once the response channel is filled, `send_request` removes the
registry entry in both cases; an ErrorResponse makes it raise an McpError
carrying the peer's ErrorData (code/message/data) and a Response has its
result validated against the caller-supplied result type and returned. -/
theorem sendRequest_filled_channel (s : SessionState) (rid : Nat) (req : SendRequest)
    (validate : String → Option String) (e : ErrorData) (res r : String)
    (hv : validate res = some r) :
    ((sendRequestFinish s rid req validate (some (.err (.num rid) e))).outcome
        = SendOutcome.errMcp e
      ∧ (sendRequestFinish s rid req validate (some (.err (.num rid) e))).state.responseStreams
        = eraseD s.responseStreams (.num rid)
      ∧ lookupD (sendRequestFinish s rid req validate
          (some (.err (.num rid) e))).state.responseStreams (.num rid) = none)
    ∧ ((sendRequestFinish s rid req validate (some (.resp (.num rid) res))).outcome
        = SendOutcome.ok r
      ∧ (sendRequestFinish s rid req validate (some (.resp (.num rid) res))).state.responseStreams
        = eraseD s.responseStreams (.num rid)
      ∧ lookupD (sendRequestFinish s rid req validate
          (some (.resp (.num rid) res))).state.responseStreams (.num rid) = none) := by
  refine ⟨⟨rfl, rfl, lookupD_eraseD _ _⟩, ?_, ?_, ?_⟩
  · simp [sendRequestFinish, hv]
  · simp [sendRequestFinish, hv]
  · simp only [sendRequestFinish, hv]
    exact lookupD_eraseD _ _

/-- Witness for `sendRequest_filled_channel` with the identity validator. -/
theorem sendRequest_filled_channel_witness :
    some "42" = some "42"
    ∧ (((sendRequestFinish freshSession 0 reqPing some (some (.err (.num 0) err0))).outcome
        = SendOutcome.errMcp err0
      ∧ (sendRequestFinish freshSession 0 reqPing some
          (some (.err (.num 0) err0))).state.responseStreams
        = eraseD freshSession.responseStreams (.num 0)
      ∧ lookupD (sendRequestFinish freshSession 0 reqPing some
          (some (.err (.num 0) err0))).state.responseStreams (.num 0) = none)
    ∧ ((sendRequestFinish freshSession 0 reqPing some (some (.resp (.num 0) "42"))).outcome
        = SendOutcome.ok "42"
      ∧ (sendRequestFinish freshSession 0 reqPing some
          (some (.resp (.num 0) "42"))).state.responseStreams
        = eraseD freshSession.responseStreams (.num 0)
      ∧ lookupD (sendRequestFinish freshSession 0 reqPing some
          (some (.resp (.num 0) "42"))).state.responseStreams (.num 0) = none)) :=
  ⟨rfl, sendRequest_filled_channel freshSession 0 reqPing some err0 "42" "42" rfl⟩

/-- C5: on one session instance starting from a fresh counter, successive
`send_request` calls allocate the ids 0, 1, 2, ...: the i-th id is i, the
sequence is strictly increasing and duplicate-free (so an id is never
reused, pending or not). -/
theorem requestIds_strictly_increasing (reqs : List SendRequest) (s : SessionState)
    (h0 : s.requestId = 0) :
    (allocSeq reqs s).1 = idRange 0 reqs.length
    ∧ List.Pairwise (· < ·) (allocSeq reqs s).1
    ∧ (allocSeq reqs s).1.Nodup
    ∧ ∀ (i : Nat) (h : i < (allocSeq reqs s).1.length), (allocSeq reqs s).1[i] = i := by
  have hids : (allocSeq reqs s).1 = idRange 0 reqs.length := by
    rw [allocSeq_ids reqs s, h0]
  refine ⟨hids, ?_, ?_, ?_⟩
  · rw [hids]; exact idRange_pairwise reqs.length 0
  · rw [hids]; exact idRange_nodup 0 reqs.length
  · intro i h
    have h' : i < (idRange 0 reqs.length).length := by rw [← hids]; exact h
    have := idRange_getElem reqs.length 0 i h'
    simp only [hids]
    omega

/-- Witness for `requestIds_strictly_increasing`: three requests on a fresh
session get ids 0, 1, 2. -/
theorem requestIds_strictly_increasing_witness :
    freshSession.requestId = 0
    ∧ ((allocSeq [reqPing, reqPing, reqPing] freshSession).1 = idRange 0 3
      ∧ List.Pairwise (· < ·) (allocSeq [reqPing, reqPing, reqPing] freshSession).1
      ∧ (allocSeq [reqPing, reqPing, reqPing] freshSession).1.Nodup
      ∧ ∀ (i : Nat) (h : i < (allocSeq [reqPing, reqPing, reqPing] freshSession).1.length),
          (allocSeq [reqPing, reqPing, reqPing] freshSession).1[i] = i) :=
  ⟨rfl, requestIds_strictly_increasing [reqPing, reqPing, reqPing] freshSession rfl⟩

/-- A concrete entered responder for inbound request 3. -/
def responder0 : Responder :=
  Responder.enter (mkResponder (.num 3) { method := "tools/call", params := "p" })

/-- C2 counterexample: after `respond()` has completed (one Response envelope
sent), a later `cancel()` sends an additional cancellation ErrorResponse,
so two outbound envelopes are sent over the responder's lifetime —
refuting "cancelling after respond() already completed sends no
additional envelope" and "at most one outbound envelope is ever sent". -/
theorem cancel_after_respond_counterexample :
    (Responder.respond responder0 (.result "ok")).sent
      = [JSONRPCMessage.response (.num 3) "ok"]
    ∧ (Responder.respond responder0 (.result "ok")).responder.completed = true
    ∧ (Responder.cancel (Responder.respond responder0 (.result "ok")).responder).sent
      = [JSONRPCMessage.error (.num 3) { code := 0, message := "Request cancelled", data := none }]
    ∧ ((Responder.respond responder0 (.result "ok")).sent
        ++ (Responder.cancel (Responder.respond responder0 (.result "ok")).responder).sent).length
      = 2 := by
  decide

/-- C2 (amended): once Completed is set it is never unset; cancelling an
entered, not-yet-completed responder sends exactly one cancellation
ErrorResponse and makes a subsequent `respond()` fail with the
IllegalState (AssertionError) error, sending nothing; but cancelling
after `respond()` has completed sends one additional cancellation
ErrorResponse — `respond()` sends at most one envelope, while every
`cancel()` on an entered responder sends one. -/
theorem responder_lifecycle_amended (r : Responder) (p : RespondPayload)
    (hent : r.entered = true) (hcomp : r.completed = false) :
    (∀ (r2 : Responder) (q : RespondPayload), r2.completed = true →
        (Responder.respond r2 q).responder.completed = true
        ∧ (Responder.cancel r2).responder.completed = true)
    ∧ ((Responder.cancel r).sent
        = [JSONRPCMessage.error r.requestId { code := 0, message := "Request cancelled", data := none }]
      ∧ (Responder.respond (Responder.cancel r).responder p).thrown
        = some RespError.alreadyCompleted
      ∧ (Responder.respond (Responder.cancel r).responder p).sent = [])
    ∧ (r.cancelled = false →
        (Responder.respond r p).sent = [sendResponseMsg r.requestId p]
        ∧ (Responder.respond r p).responder.completed = true
        ∧ (Responder.cancel (Responder.respond r p).responder).sent
          = [JSONRPCMessage.error r.requestId { code := 0, message := "Request cancelled", data := none }]) := by
  refine ⟨?_, ?_, ?_⟩
  · intro r2 q h2
    by_cases h : r2.entered = false <;>
      simp [Responder.respond, Responder.cancel, h, h2]
  · constructor
    · simp [Responder.cancel, hent]
    · constructor <;> simp [Responder.cancel, Responder.respond, hent]
  · intro hcanc
    refine ⟨?_, ?_, ?_⟩
    · simp [Responder.respond, hent, hcomp, hcanc]
    · simp [Responder.respond, hent, hcomp, hcanc]
    · simp [Responder.respond, Responder.cancel, hent, hcomp, hcanc]

/-- Witness for `responder_lifecycle_amended` at a concrete entered
responder. -/
theorem responder_lifecycle_amended_witness :
    responder0.entered = true ∧ responder0.completed = false
    ∧ ((∀ (r2 : Responder) (q : RespondPayload), r2.completed = true →
          (Responder.respond r2 q).responder.completed = true
          ∧ (Responder.cancel r2).responder.completed = true)
      ∧ ((Responder.cancel responder0).sent
          = [JSONRPCMessage.error (.num 3) { code := 0, message := "Request cancelled", data := none }]
        ∧ (Responder.respond (Responder.cancel responder0).responder (.result "ok")).thrown
          = some RespError.alreadyCompleted
        ∧ (Responder.respond (Responder.cancel responder0).responder (.result "ok")).sent = [])
      ∧ (responder0.cancelled = false →
          (Responder.respond responder0 (.result "ok")).sent
            = [sendResponseMsg (.num 3) (.result "ok")]
          ∧ (Responder.respond responder0 (.result "ok")).responder.completed = true
          ∧ (Responder.cancel (Responder.respond responder0 (.result "ok")).responder).sent
            = [JSONRPCMessage.error (.num 3) { code := 0, message := "Request cancelled", data := none }])) :=
  ⟨rfl, rfl, responder_lifecycle_amended responder0 (.result "ok") rfl rfl⟩

/-- C6 counterexample: in `send_request` the registration of the pending
response channel does occur, but not between acquiring and releasing the
id-allocation lock: it is not among the trace events performed while the
lock is held. -/
theorem register_not_under_lock_counterexample :
    Event.registerPending (.num 0)
      ∈ (sendRequestBegin (SessionState.start freshSession) reqPing).trace
    ∧ Event.registerPending (.num 0)
      ∉ underLock (sendRequestBegin (SessionState.start freshSession) reqPing).trace false := by
  decide

/-- C6 (amended): `send_request` reserves the next RequestId under the lock,
releases the lock, and only then registers the PendingRequest channel —
but the registration still happens before the Request envelope is put on
the outbound queue, so the entry exists by the time the envelope can be
sent. -/
theorem register_after_lock_before_enqueue (s : SessionState) (req : SendRequest) :
    (sendRequestBegin s req).trace
      = [Event.lockAcquire, Event.allocId s.requestId, Event.lockRelease,
         Event.registerPending (.num s.requestId),
         Event.enqueueOutbound (JSONRPCMessage.request (.num s.requestId) req.method req.params)]
    ∧ underLock (sendRequestBegin s req).trace false = [Event.allocId s.requestId]
    ∧ precedesIn (sendRequestBegin s req).trace
        (Event.registerPending (.num s.requestId))
        (Event.enqueueOutbound (JSONRPCMessage.request (.num s.requestId) req.method req.params))
    ∧ lookupD (sendRequestBegin s req).state.responseStreams (.num s.requestId) = some [] := by
  refine ⟨rfl, rfl, ?_, ?_⟩
  · exact ⟨⟨3, by simp [sendRequestBegin]⟩, ⟨4, by simp [sendRequestBegin]⟩,
      Nat.lt.base 3, rfl, rfl⟩
  · exact lookupD_insertD _ _ _

/-- C1 counterexample: the timeout McpError embeds
`request.__class__.__name__` — here the union wrapper class name
"ClientRequest" — not the request's protocol method name ("ping"), so the
Timeout error does not carry the method name. -/
theorem timeout_message_counterexample :
    (sendRequestFinish (sendRequestBegin (SessionState.start freshSession) reqPing).state
        (sendRequestBegin (SessionState.start freshSession) reqPing).rid reqPing some none).outcome
      = SendOutcome.errMcp
        ⟨408, "Timed out while waiting for response to ClientRequest.", none⟩
    ∧ ¬ ((sendRequestFinish (sendRequestBegin (SessionState.start freshSession) reqPing).state
        (sendRequestBegin (SessionState.start freshSession) reqPing).rid reqPing some none).outcome
      = SendOutcome.errMcp
        ⟨408, "Timed out while waiting for response to ping.", none⟩) := by
  decide

/-- C1 (amended): a `send_request` that times out deletes its registry entry
and raises a Timeout McpError with code 408 whose message carries the
request object's class name (not the protocol method name); any Response
or ErrorResponse arriving for that id afterwards finds no registry entry,
is delivered to no response channel, is reported to `_handle_incoming` as
a response with unknown request id, and the receive loop goes on to
process the remaining queued items. -/
theorem timeout_then_unmatched (s : SessionState) (req : SendRequest)
    (validate : String → Option String)
    (vr : String → String → Option InboundRequest)
    (vn : String → String → Option InboundNotif)
    (res : String) (e : ErrorData) (rest : List ReadItem)
    (hrun : s.running = true) :
    (sendRequestFinish (sendRequestBegin s req).state
        (sendRequestBegin s req).rid req validate none).outcome
      = SendOutcome.errMcp
        ⟨408, "Timed out while waiting for response to " ++ req.className ++ ".", none⟩
    ∧ lookupD (sendRequestFinish (sendRequestBegin s req).state
        (sendRequestBegin s req).rid req validate none).state.responseStreams
        (.num (sendRequestBegin s req).rid) = none
    ∧ (receiveStep vr vn (sendRequestFinish (sendRequestBegin s req).state
          (sendRequestBegin s req).rid req validate none).state
        (.msg (.response (.num (sendRequestBegin s req).rid) res))).outcome
      = StepOutcome.continued
    ∧ (receiveStep vr vn (sendRequestFinish (sendRequestBegin s req).state
          (sendRequestBegin s req).rid req validate none).state
        (.msg (.response (.num (sendRequestBegin s req).rid) res))).state.responseStreams
      = (sendRequestFinish (sendRequestBegin s req).state
          (sendRequestBegin s req).rid req validate none).state.responseStreams
    ∧ (receiveStep vr vn (sendRequestFinish (sendRequestBegin s req).state
          (sendRequestBegin s req).rid req validate none).state
        (.msg (.response (.num (sendRequestBegin s req).rid) res))).state.incomingLog
      = (sendRequestFinish (sendRequestBegin s req).state
          (sendRequestBegin s req).rid req validate none).state.incomingLog
        ++ [.unmatchedResponse (.num (sendRequestBegin s req).rid)]
    ∧ (receiveStep vr vn (sendRequestFinish (sendRequestBegin s req).state
          (sendRequestBegin s req).rid req validate none).state
        (.msg (.error (.num (sendRequestBegin s req).rid) e))).outcome
      = StepOutcome.continued
    ∧ (receiveStep vr vn (sendRequestFinish (sendRequestBegin s req).state
          (sendRequestBegin s req).rid req validate none).state
        (.msg (.error (.num (sendRequestBegin s req).rid) e))).state.incomingLog
      = (sendRequestFinish (sendRequestBegin s req).state
          (sendRequestBegin s req).rid req validate none).state.incomingLog
        ++ [.unmatchedResponse (.num (sendRequestBegin s req).rid)]
    ∧ receiveLoopRun vr vn (sendRequestFinish (sendRequestBegin s req).state
          (sendRequestBegin s req).rid req validate none).state
        (.msg (.response (.num (sendRequestBegin s req).rid) res) :: rest)
      = receiveLoopRun vr vn
          (receiveStep vr vn (sendRequestFinish (sendRequestBegin s req).state
            (sendRequestBegin s req).rid req validate none).state
            (.msg (.response (.num (sendRequestBegin s req).rid) res))).state rest := by
  have hnone : lookupD (sendRequestFinish (sendRequestBegin s req).state
      (sendRequestBegin s req).rid req validate none).state.responseStreams
      (.num (sendRequestBegin s req).rid) = none := by
    simp only [sendRequestFinish]
    exact lookupD_eraseD _ _
  refine ⟨rfl, hnone, ?_, ?_, ?_, ?_, ?_, ?_⟩
  · simp [receiveStep, hnone]
  · simp [receiveStep, hnone]
  · simp [receiveStep, hnone]
  · simp [receiveStep, hnone]
  · simp [receiveStep, hnone]
  · have hrun2 : (sendRequestFinish (sendRequestBegin s req).state
        (sendRequestBegin s req).rid req validate none).state.running = true := hrun
    simp only [receiveLoopRun, hrun2, if_true]
    simp [receiveStep, hnone]

/-- Witness for `timeout_then_unmatched` at a started fresh session and the
concrete ping request. -/
theorem timeout_then_unmatched_witness :
    (SessionState.start freshSession).running = true
    ∧ (sendRequestFinish (sendRequestBegin (SessionState.start freshSession) reqPing).state
        (sendRequestBegin (SessionState.start freshSession) reqPing).rid reqPing some none).outcome
      = SendOutcome.errMcp
        ⟨408, "Timed out while waiting for response to " ++ reqPing.className ++ ".", none⟩ :=
  ⟨rfl, (timeout_then_unmatched (SessionState.start freshSession) reqPing some vrNone vnNone
    "r" err0 [] rfl).1⟩

/-- C3 (code bug): an inbound Request envelope whose payload fails validation
is not dropped with a warning — the `model_validate` call in the request
branch of `_receive_loop` has no surrounding try/except, so the
ValidationError escapes, the receive loop crashes, no response is sent,
and the subsequent queue items (here a later exception item) are never
processed; by contrast a notification that fails validation is logged as
a warning and the loop continues, which is what the claim describes. -/
theorem invalid_request_crashes_loop :
    (receiveStep vrNone vnNone (SessionState.start freshSession)
        (.msg (.request (.num 7) "bogus/method" "p"))).outcome = .crashed "ValidationError"
    ∧ (receiveStep vrNone vnNone (SessionState.start freshSession)
        (.msg (.request (.num 7) "bogus/method" "p"))).state.writeQueue = []
    ∧ (receiveStep vrNone vnNone (SessionState.start freshSession)
        (.msg (.request (.num 7) "bogus/method" "p"))).state.warnings = []
    ∧ (receiveLoopRun vrNone vnNone (SessionState.start freshSession)
        [.msg (.request (.num 7) "bogus/method" "p"), .exc "later"]).2
      = .crashed "ValidationError"
    ∧ (receiveLoopRun vrNone vnNone (SessionState.start freshSession)
        [.msg (.request (.num 7) "bogus/method" "p"), .exc "later"]).1.incomingLog = []
    ∧ (receiveStep vrNone vnNone (SessionState.start freshSession)
        (.msg (.notification "bogus" "p"))).outcome = .continued
    ∧ (receiveStep vrNone vnNone (SessionState.start freshSession)
        (.msg (.notification "bogus" "p"))).state.warnings
      = ["Failed to validate notification"] := by
  decide

/-- Stream URL of the concrete mismatched-origin scenario. -/
def streamUrl : String := "http://good.example/sse"

/-- Resolution of an SSE data payload against the stream URL (urljoin);
in the scenario the payload is already absolute. -/
def joinUrl0 : String → String := fun d => d

/-- urlparse for the two URLs of the scenario. -/
def parseUrl0 : String → URL := fun u =>
  if u = "http://good.example/sse" then
    { scheme := "http", netloc := "good.example", path := "/sse" }
  else
    { scheme := "http", netloc := "evil.example", path := "/messages" }

/-- Envelope parser of the scenario (never called before the abort). -/
def parse0 : String → Option JSONRPCMessage := fun _ => none

/-- A first "endpoint" control event resolving to a different origin,
followed by a further event that must never be processed. -/
def evilEvents : List SSEEvent :=
  [{ event := "endpoint", data := "http://evil.example/messages" },
   { event := "message", data := "x" }]

/-- C4 (code bug): when the first "endpoint" event resolves cross-origin the
reader raises the ValueError, puts it and the end-of-stream sentinel on
the inbound queue, processes nothing further, and never publishes an
endpoint on `task_status` — so the writer thread is never started and
nothing is POSTed; but `connect()` does not abort: its unconditional
`task_status.get()` blocks forever. -/
theorem origin_mismatch_blocks_connect :
    (connect streamUrl joinUrl0 parseUrl0 parse0 evilEvents
        [some (.notification "m" "p")]).reader.taskStatus = []
    ∧ (connect streamUrl joinUrl0 parseUrl0 parse0 evilEvents
        [some (.notification "m" "p")]).reader.readQueue
      = [ReadItem.exc
          "Endpoint origin does not match connection origin: http://evil.example/messages",
         ReadItem.eos]
    ∧ (connect streamUrl joinUrl0 parseUrl0 parse0 evilEvents
        [some (.notification "m" "p")]).outcome = .blocked
    ∧ (connect streamUrl joinUrl0 parseUrl0 parse0 evilEvents
        [some (.notification "m" "p")]).writerStarted = false
    ∧ (connect streamUrl joinUrl0 parseUrl0 parse0 evilEvents
        [some (.notification "m" "p")]).posted = [] := by
  decide

/-- C7 (code bug): the transport side of the claim holds — for every stream
the reader puts the escaped exception (if any) and then exactly one
end-of-stream sentinel, last, on the inbound queue (shown concretely for
a terminal reader exception: exception then sentinel), and an exception
item dequeued by the receive loop is forwarded to `_handle_incoming`
with the loop continuing; but the sentinel itself is not forwarded to
the hook: `message.root` on `None` raises AttributeError and the receive
loop crashes. -/
theorem reader_sentinel_and_crash (selfUrl : String) (joinUrl : String → String)
    (parseUrl : String → URL) (parse : String → Option JSONRPCMessage)
    (events : List SSEEvent) (s : SessionState) (e : String)
    (vr : String → String → Option InboundRequest)
    (vn : String → String → Option InboundNotif) :
    (sseReader selfUrl joinUrl parseUrl parse events).readQueue.count ReadItem.eos = 1
    ∧ (sseReader selfUrl joinUrl parseUrl parse events).readQueue.getLast? = some ReadItem.eos
    ∧ (sseReader streamUrl joinUrl0 parseUrl0 parse0 evilEvents).readQueue
      = [ReadItem.exc
          "Endpoint origin does not match connection origin: http://evil.example/messages",
         ReadItem.eos]
    ∧ (receiveStep vr vn s (.exc e)).outcome = .continued
    ∧ (receiveStep vr vn s (.exc e)).state.incomingLog = s.incomingLog ++ [.exc e]
    ∧ (receiveStep vr vn s .eos).outcome = .crashed "AttributeError"
    ∧ (receiveStep vr vn s .eos).state = s := by
  refine ⟨?_, ?_, by decide, rfl, rfl, rfl, rfl⟩
  · have hmem := eos_not_mem_sseReaderLoop selfUrl joinUrl parseUrl parse events
    simp only [sseReader]
    rw [List.count_append, List.count_append]
    rw [List.count_eq_zero.mpr hmem]
    cases hr : (sseReaderLoop selfUrl joinUrl parseUrl parse events).raised with
    | none => simp
    | some x => simp
  · simp only [sseReader]
    exact List.getLast?_concat _
